import Mathlib

/-!
Shallow embedding of the observability and resilience layer of the
kilo-k-exams client: error taxonomy and classifier, retry engine,
health checker and monitor, logger sanitization and bounded buffers,
session tracker, and auto-recovery coordinator.  Definitions are
translated from the TypeScript sources (src/utils/errorHandler,
src/utils/logger, src/utils/monitoring, src/utils/stability); machine
side effects (wall clock, localStorage, window.location, Math.random)
become explicit parameters, and thrown exceptions become Except.
-/

/-- Model of `AppError` / `ApplicationError` (errorHandler.ts).
The TypeScript constructor assigns `name`, `code`, `statusCode`,
`context` and `isOperational`; it calls `super(message)` with no
options object, so the ES2022 `Error.cause` property is never set and
the `cause` entry of the options record is discarded.  `cause` below
records the (name, message) of a cause error; the constructor always
leaves it `none`, mirroring that behavior. -/
structure ApplicationError where
  name : String
  message : String
  code : Option String
  statusCode : Option Nat
  context : Option String
  isOperational : Bool
  cause : Option (String × String)
deriving Repr, DecidableEq

/-- The options record accepted by the `ApplicationError` constructor. -/
structure ErrorOptions where
  code : Option String
  statusCode : Option Nat
  context : Option String
  isOperational : Option Bool
  cause : Option (String × String)
deriving Repr, DecidableEq

/-- Empty options record (the TypeScript default `= {}`). -/
def ErrorOptions.empty : ErrorOptions :=
  { code := none, statusCode := none, context := none,
    isOperational := none, cause := none }

/-- `new ApplicationError(message, options)`: stores code, statusCode,
context, `isOperational ?? true`; `options.cause` is not stored anywhere
and `super(message)` is called without options, so the resulting error
has no `cause`. -/
def mkApplicationError (message : String) (options : ErrorOptions) :
    ApplicationError :=
  { name := "ApplicationError"
    message := message
    code := options.code
    statusCode := options.statusCode
    context := options.context
    isOperational := options.isOperational.getD true
    cause := none }

/-- `new ValidationError(message, context)`. -/
def mkValidationError (message : String) (context : Option String) :
    ApplicationError :=
  { mkApplicationError message
      { code := some "VALIDATION_ERROR", statusCode := some 400,
        context := context, isOperational := some true, cause := none }
    with name := "ValidationError" }

/-- `new NetworkError(message, context, cause)`. -/
def mkNetworkError (message : String) (context : Option String)
    (cause : Option (String × String)) : ApplicationError :=
  { mkApplicationError message
      { code := some "NETWORK_ERROR", statusCode := some 0,
        context := context, isOperational := some true, cause := cause }
    with name := "NetworkError" }

/-- `new DatabaseError(message, context, cause)`. -/
def mkDatabaseError (message : String) (context : Option String)
    (cause : Option (String × String)) : ApplicationError :=
  { mkApplicationError message
      { code := some "DATABASE_ERROR", statusCode := some 500,
        context := context, isOperational := some true, cause := cause }
    with name := "DatabaseError" }

/-- `new AuthenticationError(message, context)`. -/
def mkAuthenticationError (message : String) (context : Option String) :
    ApplicationError :=
  { mkApplicationError message
      { code := some "AUTH_ERROR", statusCode := some 401,
        context := context, isOperational := some true, cause := none }
    with name := "AuthenticationError" }

/-- `new PermissionError(message, context)`. -/
def mkPermissionError (message : String) (context : Option String) :
    ApplicationError :=
  { mkApplicationError message
      { code := some "PERMISSION_ERROR", statusCode := some 403,
        context := context, isOperational := some true, cause := none }
    with name := "PermissionError" }

/-- `new NotFoundError(message, context)`. -/
def mkNotFoundError (message : String) (context : Option String) :
    ApplicationError :=
  { mkApplicationError message
      { code := some "NOT_FOUND", statusCode := some 404,
        context := context, isOperational := some true, cause := none }
    with name := "NotFoundError" }

/-- Model of an arbitrary JavaScript value as it is discriminated by the
source (`instanceof ApplicationError`, `instanceof Error`,
`typeof === "object"`, etc.).  `nativeError` is a built-in `Error` that
is not an `ApplicationError`. -/
inductive JsValue where
  | appError (e : ApplicationError)
  | nativeError (name message : String) (stack : Option String)
  | obj (fields : List (String × JsValue))
  | str (s : String)
  | num (n : Int)
  | jbool (b : Bool)
  | null
  | undef
deriving Repr

/-- JavaScript `String(v)` as used by `handleError` on non-Error values
(`Error.prototype.toString` for errors, `[object Object]` for plain
objects, etc.). -/
def jsToString : JsValue → String
  | .appError e => if e.message = "" then e.name else e.name ++ ": " ++ e.message
  | .nativeError n m _ => if m = "" then n else n ++ ": " ++ m
  | .obj _ => "[object Object]"
  | .str s => s
  | .num n => toString n
  | .jbool b => if b then "true" else "false"
  | .null => "null"
  | .undef => "undefined"

/-- `handleError(error, context)` (errorHandler.ts lines 123-143):
passes `ApplicationError` instances through; wraps a native `Error` in
`new ApplicationError(error.message, { context, cause: error })`;
stringifies anything else. -/
def handleError (error : JsValue) (context : Option String) :
    ApplicationError :=
  match error with
  | .appError e => e
  | .nativeError name message _ =>
      mkApplicationError message
        { code := none, statusCode := none, context := context,
          isOperational := none, cause := some (name, message) }
  | v =>
      mkApplicationError (jsToString v)
        { code := none, statusCode := none, context := context,
          isOperational := some true, cause := none }

/-- `getErrorMessage(error)` (errorHandler.ts lines 224-234). -/
def getErrorMessage (error : JsValue) : String :=
  match error with
  | .appError e => e.message
  | .nativeError _ m _ => m
  | .str s => s
  | _ => "An unknown error occurred"

/-- Log levels (logger.ts `LogLevel`). -/
inductive LogLevel where
  | debug
  | info
  | warn
  | error
deriving Repr, DecidableEq

/-- Model of `LogEntry` (logger.ts).  ISO timestamps are modelled as
natural-number clock readings. -/
structure LogEntry where
  timestamp : Nat
  level : LogLevel
  message : String
  context : Option String
  data : Option JsValue
  userId : Option String
  sessionId : String
deriving Repr

/-- `Logger.sanitizeError(error)` (logger.ts): an `Error` instance is
replaced by `{message, name, stack}`; a plain object is shallow-copied
with its `password`, `token` and `secret` fields deleted; anything else
is returned unchanged. -/
def sanitizeError (error : JsValue) : JsValue :=
  match error with
  | .appError e =>
      .obj [("message", .str e.message), ("name", .str e.name),
            ("stack", .undef)]
  | .nativeError name message stack =>
      .obj [("message", .str message), ("name", .str name),
            ("stack", match stack with | some s => .str s | none => .undef)]
  | .obj fields =>
      .obj (fields.filter (fun p =>
        !(p.1 = "password" || p.1 = "token" || p.1 = "secret")))
  | v => v

/-- `Logger.createLogEntry(level, message, context, data)` (logger.ts
lines 118-154): builds the record that is mirrored to the console sink
and handed to `storeLogLocally`; the `data` argument is placed in the
entry as given.  The logger-lifetime `sessionId`, the derived `userId`
and the clock are passed explicitly. -/
def createLogEntry (sessionId : String) (userId : Option String)
    (now : Nat) (level : LogLevel) (message : String)
    (context : Option String) (data : Option JsValue) : LogEntry :=
  { timestamp := now
    level := level
    message := message
    context := context
    data := data
    userId := userId
    sessionId := sessionId }

/-- `Logger.storeLogLocally(entry)` (logger.ts lines 165-179) acting on
the stored list: `logs.push(entry)` followed by
`logs.splice(0, logs.length - 100)` when the length exceeds 100, i.e.
only the last 100 entries are kept. -/
def storeLogLocally (logs : List LogEntry) (entry : LogEntry) :
    List LogEntry :=
  let logs' := logs ++ [entry]
  if logs'.length > 100 then logs'.drop (logs'.length - 100) else logs'

/-- `Logger.trackApiCall(endpoint, method, success, duration, error)`
(logger.ts): builds the data object, applying `sanitizeError` to the
`error` field when present, and logs it at info/error level.  Returns
the emitted `LogEntry`. -/
def trackApiCall (sessionId : String) (userId : Option String)
    (now : Nat) (endpoint method : String) (success : Bool)
    (duration : Option Int) (error : Option JsValue) : LogEntry :=
  let message := method ++ " " ++ endpoint ++ " - " ++
    (if success then "SUCCESS" else "FAILED")
  let data : JsValue := .obj
    [("endpoint", .str endpoint),
     ("method", .str method),
     ("success", .jbool success),
     ("duration", match duration with | some d => .num d | none => .undef),
     ("error", match error with | some e => sanitizeError e | none => .undef)]
  createLogEntry sessionId userId now
    (if success then .info else .error) message (some "API_CALL")
    (some data)

/-- `validateEnvironmentVariables(requiredVars)` (errorHandler.ts lines
237-252).  `env` is the set of environment variable names that are
present (truthy); a missing name makes the call throw a
`ValidationError` listing the missing names. -/
def validateEnvironmentVariables (env : List String)
    (requiredVars : List String) : Except ApplicationError Unit :=
  let missing := requiredVars.filter (fun v => !(env.contains v))
  if missing.isEmpty then .ok ()
  else .error (mkValidationError
    ("Missing required environment variables: " ++
      String.intercalate ", " missing)
    (some "ENV_VALIDATION"))

/-- Health status (errorHandler.ts `HealthCheck.status`). -/
inductive HealthStatus where
  | healthy
  | degraded
  | unhealthy
deriving Repr, DecidableEq

/-- The three per-subsystem booleans of a `HealthCheck`. -/
structure HealthChecks where
  environment : Bool
  supabase : Bool
  storage : Bool
deriving Repr, DecidableEq

/-- Model of `HealthCheck` (errorHandler.ts lines 255-264). -/
structure HealthCheck where
  status : HealthStatus
  timestamp : Nat
  checks : HealthChecks
  errors : Option (List String)
deriving Repr, DecidableEq

/-- `performHealthCheck()` (errorHandler.ts lines 266-316).  The
environment is the list of present variable names; `storageErr` is
`some msg` when the localStorage round trip throws an error with
message `msg`.  The Supabase probe in the source is a `try` block whose
body just sets the flag to `true`, so it never fails.  Error strings
are collected in probe order (environment, supabase, storage), one per
failing probe. -/
def performHealthCheck (now : Nat) (env : List String)
    (storageErr : Option String) : HealthCheck :=
  let envResult := validateEnvironmentVariables env
    ["VITE_SUPABASE_URL", "VITE_SUPABASE_ANON_KEY"]
  let envHealthy := envResult.isOk
  let envErrors : List String :=
    match envResult with
    | .ok _ => []
    | .error e => ["Environment: " ++ getErrorMessage (.appError e)]
  let supabaseHealthy := true
  let storageHealthy := storageErr.isNone
  let storageErrors : List String :=
    match storageErr with
    | none => []
    | some m => ["Storage: " ++ getErrorMessage (.nativeError "Error" m none)]
  let errors := envErrors ++ storageErrors
  let checks : HealthChecks :=
    { environment := envHealthy, supabase := supabaseHealthy,
      storage := storageHealthy }
  let allHealthy := checks.environment && checks.supabase && checks.storage
  let someHealthy := checks.environment || checks.supabase || checks.storage
  let status : HealthStatus :=
    if allHealthy then .healthy
    else if someHealthy then .degraded
    else .unhealthy
  { status := status
    timestamp := now
    checks := checks
    errors := if errors.isEmpty then none else some errors }

/-- The loop body of `retryWithBackoff` (errorHandler.ts lines 157-202),
one constructor step per `for` iteration.  `op k` is the outcome of the
k-th invocation of the operation; `jitter k` is the value of
`Math.random() * 1000` drawn before the k-th delay.  The first argument
is the remaining number of loop iterations (`maxAttempts - attempt + 1`
at entry); when it reaches zero the loop has exited and the final
`throw lastError!` runs (`.error none` models throwing the undefined
`lastError`).  Returns the outcome, the list of delays slept, and the
number of times the operation was invoked. -/
def retryGo (op : Nat → Except JsValue α) (jitter : Nat → ℚ)
    (context : Option String) (maxAttempts : Nat)
    (baseDelay maxDelay : ℚ) :
    Nat → Nat → Option ApplicationError →
    Except (Option ApplicationError) α × List ℚ × Nat
  | 0, _, lastError => (.error lastError, [], 0)
  | fuel + 1, attempt, _ =>
    match op attempt with
    | .ok a => (.ok a, [], 1)
    | .error e =>
      let le := handleError e context
      if attempt = maxAttempts then (.error (some le), [], 1)
      else
        let delay := min (baseDelay * 2 ^ (attempt - 1) + jitter attempt)
          maxDelay
        let r := retryGo op jitter context maxAttempts baseDelay maxDelay
          fuel (attempt + 1) (some le)
        (r.1, delay :: r.2.1, r.2.2 + 1)

/-- `retryWithBackoff(operation, options)`: runs the attempt loop from
attempt 1 with `lastError` uninitialized. -/
def retryWithBackoff (op : Nat → Except JsValue α) (jitter : Nat → ℚ)
    (context : Option String) (maxAttempts : Nat)
    (baseDelay maxDelay : ℚ) :
    Except (Option ApplicationError) α × List ℚ × Nat :=
  retryGo op jitter context maxAttempts baseDelay maxDelay maxAttempts 1 none

/-- Result of `AutoRecovery.attemptRecovery`: either the max-attempts
error or the rethrown operation error. -/
inductive RecoveryError (ε : Type) where
  | maxReached (msg : String)
  | opFailed (e : ε)
deriving Repr, DecidableEq

/-- `AutoRecovery.attemptRecovery(operation, context)` (stability.ts
lines 199-230), restricted to the counter of one context label.
`counter` is `recoveryAttempts.get(context)` (`none` when absent); `op
k` is the outcome of the k-th invocation of the operation performed by
this call chain.  On success the counter is deleted; on failure it is
incremented and, while below `maxAttempts`, the method waits out the
cooldown and recursively retries.  Returns the outcome, the counter
value after the call, and the number of operation invocations. -/
def attemptRecovery (op : Nat → Except ε α) (ctx : String)
    (maxAttempts : Nat) (counter : Option Nat) (k : Nat) :
    Except (RecoveryError ε) α × Option Nat × Nat :=
  let attempts := counter.getD 0
  if attempts ≥ maxAttempts then
    (.error (.maxReached ("Max recovery attempts reached for " ++ ctx)),
     counter, 0)
  else
    match op k with
    | .ok a => (.ok a, none, 1)
    | .error e =>
      let newAttempts := attempts + 1
      if _h : newAttempts < maxAttempts then
        let r := attemptRecovery op ctx maxAttempts (some newAttempts) (k + 1)
        (r.1, r.2.1, r.2.2 + 1)
      else
        (.error (.opFailed e), some newAttempts, 1)
termination_by maxAttempts - counter.getD 0
decreasing_by simp only [Option.getD_some]; omega

/-- Interaction types (monitoring.ts `UserInteraction.type`). -/
inductive InteractionType where
  | click
  | scroll
  | input
  | navigation
deriving Repr, DecidableEq

/-- Model of `UserInteraction` (monitoring.ts lines 36-42). -/
structure UserInteraction where
  timestamp : Nat
  type : InteractionType
  element : Option String
  page : String
  data : Option JsValue
deriving Repr

/-- Model of `ErrorEvent` (monitoring.ts lines 44-51). -/
structure ErrorEvent where
  timestamp : Nat
  message : String
  stack : Option String
  context : String
  userId : Option String
  sessionId : String
deriving Repr

/-- Model of `UserSession` (monitoring.ts lines 25-34).  The inert
`performance` array (initialized empty and never written by the
tracker) is omitted. -/
structure UserSession where
  sessionId : String
  userId : Option String
  startTime : Nat
  endTime : Option Nat
  pageViews : List String
  interactions : List UserInteraction
  errors : List ErrorEvent
deriving Repr

/-- Mutable state of a `UserTracker` instance: the optional current
session and the tracker-level interaction and error buffers. -/
structure TrackerState where
  currentSession : Option UserSession
  interactions : List UserInteraction
  errors : List ErrorEvent
deriving Repr

/-- A freshly constructed `UserTracker` (all fields empty). -/
def TrackerState.empty : TrackerState :=
  { currentSession := none, interactions := [], errors := [] }

/-- `UserTracker.startSession(userId)` (monitoring.ts lines 189-201):
replaces `currentSession` with a fresh session whose `pageViews` starts
at the current `window.location.pathname`; the tracker-level
`interactions` and `errors` buffers are not touched. -/
def UserTracker.startSession (s : TrackerState) (sid : String)
    (userId : Option String) (now : Nat) (pathname : String) :
    TrackerState :=
  { s with currentSession := some (
      { sessionId := sid
        userId := userId
        startTime := now
        endTime := none
        pageViews := [pathname]
        interactions := []
        errors := [] } : UserSession) }

/-- `UserTracker.trackInteraction(type, element, data)` (monitoring.ts
lines 225-242): appends the interaction to the tracker-level buffer and
keeps only the last 100 (`slice(-100)`).  The current session is not
consulted. -/
def UserTracker.trackInteraction (s : TrackerState)
    (type : InteractionType) (element : Option String) (pathname : String)
    (data : Option JsValue) (now : Nat) : TrackerState :=
  let interaction : UserInteraction :=
    { timestamp := now, type := type, element := element,
      page := pathname, data := data }
  let interactions' := s.interactions ++ [interaction]
  { s with interactions :=
      if interactions'.length > 100 then
        interactions'.drop (interactions'.length - 100)
      else interactions' }

/-- `UserTracker.trackError(error, context)` (monitoring.ts lines
244-262): appends the event to the tracker-level error buffer and keeps
only the last 50 (`slice(-50)`).  `sessionId` is
`currentSession?.sessionId || "unknown"` (the empty string is falsy). -/
def UserTracker.trackError (s : TrackerState) (message : String)
    (stack : Option String) (context : String) (now : Nat) :
    TrackerState :=
  let sid : String :=
    match s.currentSession with
    | some ss => if ss.sessionId = "" then "unknown" else ss.sessionId
    | none => "unknown"
  let event : ErrorEvent :=
    { timestamp := now, message := message, stack := stack,
      context := context,
      userId := s.currentSession.bind (fun ss => ss.userId),
      sessionId := sid }
  let errors' := s.errors ++ [event]
  { s with errors :=
      if errors'.length > 50 then errors'.drop (errors'.length - 50)
      else errors' }

/-- `UserTracker.trackPageView(page)` (monitoring.ts lines 264-269):
appends to the current session's `pageViews`; no-op when no session is
active. -/
def UserTracker.trackPageView (s : TrackerState) (page : String) :
    TrackerState :=
  match s.currentSession with
  | none => s
  | some ss =>
    let updated : UserSession := { ss with pageViews := ss.pageViews ++ [page] }
    { s with currentSession := some updated }

/-- `UserTracker.endSession()` (monitoring.ts lines 203-223): stamps
`endTime`, copies the tracker-level buffers into the session, forwards
the sealed session to the analytics sink, and clears the in-memory
state.  Returns the new state and the emitted session (`none` when no
session was active). -/
def UserTracker.endSession (s : TrackerState) (now : Nat) :
    TrackerState × Option UserSession :=
  match s.currentSession with
  | none => (s, none)
  | some ss =>
    let sealed : UserSession :=
      { ss with endTime := some now, interactions := s.interactions,
                errors := s.errors }
    ({ currentSession := none, interactions := [], errors := [] },
     some sealed)

/-- `slice(-n)` on a list: the last `n` elements (the whole list when it
is shorter than `n`). -/
def sliceLast (n : Nat) (l : List α) : List α :=
  l.drop (l.length - n)

/-- Memory telemetry snapshot (`performance.memory`), present only when
the runtime exposes it. -/
structure MemoryInfo where
  usedJSHeapSize : ℚ
  jsHeapSizeLimit : ℚ
deriving Repr

/-- An alert produced by `HealthMonitor.checkAlerts`.  The source
formats these as strings with a percentage; the numeric payload is kept
instead of the rendered text. -/
inductive Alert where
  | highErrorRate (rate : ℚ)
  | highMemoryUsage (ratio : ℚ)
deriving Repr, DecidableEq

/-- The error rate computed by `HealthMonitor.checkAlerts` (monitoring.ts
lines 342-344): the fraction of the last 10 history entries whose
status is `unhealthy`. -/
def recentErrorRate (history : List HealthCheck) : ℚ :=
  let recent := sliceLast 10 history
  ((recent.countP (fun h => h.status = .unhealthy)) : ℚ) /
    ((recent.length : Nat) : ℚ)

/-- `HealthMonitor.checkAlerts(health)` (monitoring.ts lines 339-369):
collects an error-rate alert when the recent error rate exceeds the
0.05 threshold and a memory alert when telemetry is available and the
used/limit ratio exceeds 0.8; the alerts are logged (and forwarded)
exactly when the list is non-empty. -/
def checkAlerts (history : List HealthCheck) (memory : Option MemoryInfo) :
    List Alert :=
  let errorRate := recentErrorRate history
  let rateAlerts : List Alert :=
    if errorRate > 5 / 100 then [.highErrorRate errorRate] else []
  let memoryAlerts : List Alert :=
    match memory with
    | none => []
    | some m =>
      let memoryUsage := m.usedJSHeapSize / m.jsHeapSizeLimit
      if memoryUsage > 8 / 10 then [.highMemoryUsage memoryUsage] else []
  rateAlerts ++ memoryAlerts

/-- `HealthMonitor.checkHealth()` (monitoring.ts lines 324-337) acting
on the `healthHistory` field: pushes the new check, trims the history
to the last 100 entries when it exceeds 100, then evaluates the alert
conditions on the trimmed history.  Returns the new history and the
alerts. -/
def checkHealth (history : List HealthCheck) (health : HealthCheck)
    (memory : Option MemoryInfo) : List HealthCheck × List Alert :=
  let pushed := history ++ [health]
  let history' :=
    if pushed.length > 100 then sliceLast 100 pushed else pushed
  (history', checkAlerts history' memory)

/-- The common bounded-append step shared by the three buffers:
`push` followed by keeping only the last `cap` elements
(`splice(0, length - cap)` in the logger, `slice(-cap)` in the
tracker — both drop the oldest surplus). -/
def pushCap (cap : Nat) (l : List α) (x : α) : List α :=
  let l' := l ++ [x]
  if l'.length > cap then l'.drop (l'.length - cap) else l'

lemma storeLogLocally_eq_pushCap (logs : List LogEntry) (e : LogEntry) :
    storeLogLocally logs e = pushCap 100 logs e := rfl

lemma trackInteraction_interactions (s : TrackerState)
    (ty : InteractionType) (el : Option String) (pg : String)
    (d : Option JsValue) (now : Nat) :
    (UserTracker.trackInteraction s ty el pg d now).interactions =
      pushCap 100 s.interactions
        { timestamp := now, type := ty, element := el, page := pg,
          data := d } := rfl

lemma trackError_errors (s : TrackerState) (msg : String)
    (stk : Option String) (ctx : String) (now : Nat) :
    (UserTracker.trackError s msg stk ctx now).errors =
      pushCap 50 s.errors
        { timestamp := now, message := msg, stack := stk, context := ctx,
          userId := s.currentSession.bind (fun ss => ss.userId),
          sessionId :=
            match s.currentSession with
            | some ss => if ss.sessionId = "" then "unknown" else ss.sessionId
            | none => "unknown" } := rfl

/-- Folding the bounded push over a whole call sequence keeps exactly
the last `cap` elements in order. -/
lemma foldl_pushCap (cap : Nat) (hcap : 0 < cap) (xs : List α) :
    List.foldl (pushCap cap) [] xs = xs.drop (xs.length - cap) := by
  induction xs using List.reverseRecOn with
  | nil => simp
  | append_singleton xs x ih =>
    rw [List.foldl_append, List.foldl_cons, List.foldl_nil, ih]
    rcases Nat.lt_or_ge xs.length cap with hc | hc
    · have h0 : xs.length - cap = 0 := by omega
      have h1 : (xs ++ [x]).length - cap = 0 := by
        simp only [List.length_append, List.length_singleton]; omega
      simp only [h0, h1, List.drop_zero, pushCap]
      have : ¬ (xs ++ [x]).length > cap := by
        simp only [List.length_append, List.length_singleton]; omega
      simp [this]
    · have hb : (xs.drop (xs.length - cap)).length = cap := by
        rw [List.length_drop]; omega
      simp only [pushCap]
      have hlen : (xs.drop (xs.length - cap) ++ [x]).length = cap + 1 := by
        simp [hb]
      rw [hlen]
      have hgt : cap + 1 > cap := Nat.lt_succ_self cap
      simp only [hgt, if_pos, Nat.add_sub_cancel_left]
      rw [List.drop_append_eq_append_drop]
      rw [hb]
      have h1 : (1 : Nat) - cap = 0 := by omega
      rw [List.drop_drop, h1, List.drop_zero]
      rw [List.drop_append_eq_append_drop]
      have h2 : (xs ++ [x]).length - cap ≤ xs.length := by
        simp only [List.length_append, List.length_singleton]; omega
      have h3 : ((xs ++ [x]).length - cap) - xs.length = 0 := by omega
      rw [h3, List.drop_zero]
      congr 1
      · congr 1
        simp only [List.length_append, List.length_singleton]
        omega

/-- Claim C8: every taxonomy variant fixes its `code`/`statusCode`
pair deterministically (Validation = VALIDATION_ERROR/400, Network = 0,
Database = 500, Authentication = 401, Permission = 403,
NotFound = 404), while the base `ApplicationError` takes whatever the
options record supplies and fixes no pair of its own. -/
theorem errorVariantCodes_spec (msg : String) (ctx : Option String)
    (cause : Option (String × String)) (options : ErrorOptions) :
    ((mkValidationError msg ctx).code = some "VALIDATION_ERROR" ∧
      (mkValidationError msg ctx).statusCode = some 400) ∧
    ((mkNetworkError msg ctx cause).code = some "NETWORK_ERROR" ∧
      (mkNetworkError msg ctx cause).statusCode = some 0) ∧
    ((mkDatabaseError msg ctx cause).code = some "DATABASE_ERROR" ∧
      (mkDatabaseError msg ctx cause).statusCode = some 500) ∧
    ((mkAuthenticationError msg ctx).code = some "AUTH_ERROR" ∧
      (mkAuthenticationError msg ctx).statusCode = some 401) ∧
    ((mkPermissionError msg ctx).code = some "PERMISSION_ERROR" ∧
      (mkPermissionError msg ctx).statusCode = some 403) ∧
    ((mkNotFoundError msg ctx).code = some "NOT_FOUND" ∧
      (mkNotFoundError msg ctx).statusCode = some 404) ∧
    ((mkApplicationError msg options).code = options.code ∧
      (mkApplicationError msg options).statusCode = options.statusCode) :=
  ⟨⟨rfl, rfl⟩, ⟨rfl, rfl⟩, ⟨rfl, rfl⟩, ⟨rfl, rfl⟩, ⟨rfl, rfl⟩,
   ⟨rfl, rfl⟩, ⟨rfl, rfl⟩⟩

/-- Claim C9 (evidence of the code bug): classifying a native error
keeps its message, but the wrapping `ApplicationError` carries no
`cause` — `handleError` passes `cause: error` in the options, yet the
`ApplicationError` constructor neither stores it nor forwards it to
`Error`, so the original error is lost.  An existing `ApplicationError`
is still passed through unchanged and a non-Error value is still
stringified. -/
theorem handleError_cause_dropped :
    (handleError (.nativeError "Error" "boom" none) (some "CTX")).message =
        "boom" ∧
    (handleError (.nativeError "Error" "boom" none) (some "CTX")).cause =
        none ∧
    (∀ e : ApplicationError, handleError (.appError e) (some "CTX") = e) ∧
    (handleError (.num 7) none).message = "7" :=
  ⟨rfl, rfl, fun _ => rfl, rfl⟩

/-- Claim C3 counterexample: a plain `logger.info` call whose data
object carries a `password` field emits and stores the record with the
password value intact — `createLogEntry` copies `data` as given and
`storeLogLocally` stores that entry verbatim; `sanitizeError` is not on
this path. -/
theorem logger_data_not_sanitized :
    (createLogEntry "sid" none 0 .info "login attempt" none
        (some (.obj [("password", .str "hunter2")]))).data =
      some (.obj [("password", .str "hunter2")]) ∧
    storeLogLocally []
        (createLogEntry "sid" none 0 .info "login attempt" none
          (some (.obj [("password", .str "hunter2")]))) =
      [createLogEntry "sid" none 0 .info "login attempt" none
        (some (.obj [("password", .str "hunter2")]))] :=
  ⟨rfl, rfl⟩

/-- Claim C3 (amended): sanitization happens only on the `error` field
of `trackApiCall`: `sanitizeError` strips every `password`, `token` and
`secret` field from an object error, and the record `trackApiCall`
emits carries the sanitized error in its data; a direct logging call at
any level stores its `data` argument unchanged. -/
theorem sanitizeApiError_spec (fields : List (String × JsValue))
    (sessionId : String) (userId : Option String) (now : Nat)
    (endpoint method : String) (success : Bool) (duration : Option Int) :
    (∃ fs, sanitizeError (.obj fields) = .obj fs ∧
       ∀ p ∈ fs, p.1 ≠ "password" ∧ p.1 ≠ "token" ∧ p.1 ≠ "secret") ∧
    (∃ dataFields,
       (trackApiCall sessionId userId now endpoint method success
           duration (some (.obj fields))).data =
         some (.obj dataFields) ∧
       ("error", sanitizeError (.obj fields)) ∈ dataFields) ∧
    (∀ (level : LogLevel) (message : String) (context : Option String)
        (d : Option JsValue),
       (createLogEntry sessionId userId now level message context d).data =
         d) := by
  refine ⟨⟨_, rfl, ?_⟩, ⟨_, rfl, ?_⟩, fun _ _ _ _ => rfl⟩
  · intro p hp
    simp only [List.mem_filter, Bool.not_eq_true', Bool.or_eq_false_iff,
      decide_eq_false_iff_not] at hp
    exact ⟨hp.2.1.1, hp.2.1.2, hp.2.2⟩
  · simp

/-- Witness for the amended C3 claim at a concrete input: sanitizing an
object with a `password` field yields an object none of whose fields is
named `password`, `token` or `secret`. -/
theorem sanitizeApiError_spec_witness :
    ∃ fs, sanitizeError
        (.obj [("password", .str "hunter2"), ("ok", .str "v")]) = .obj fs ∧
      ∀ p ∈ fs, p.1 ≠ "password" ∧ p.1 ≠ "token" ∧ p.1 ≠ "secret" :=
  (sanitizeApiError_spec [("password", .str "hunter2"), ("ok", .str "v")]
    "sid" none 0 "/api" "GET" true none).1

/-- One recorded `trackInteraction` call: the arguments together with
the pathname and clock reading observed during the call. -/
structure InteractionCall where
  type : InteractionType
  element : Option String
  pathname : String
  data : Option JsValue
  now : Nat

/-- Replay one `trackInteraction` call on a tracker state. -/
def applyInteraction (s : TrackerState) (c : InteractionCall) :
    TrackerState :=
  UserTracker.trackInteraction s c.type c.element c.pathname c.data c.now

/-- The `UserInteraction` record a call produces. -/
def interactionOf (c : InteractionCall) : UserInteraction :=
  { timestamp := c.now, type := c.type, element := c.element,
    page := c.pathname, data := c.data }

/-- One recorded `trackError` call. -/
structure ErrorCall where
  message : String
  stack : Option String
  context : String
  now : Nat

/-- Replay one `trackError` call on a tracker state. -/
def applyError (s : TrackerState) (c : ErrorCall) : TrackerState :=
  UserTracker.trackError s c.message c.stack c.context c.now

/-- The `ErrorEvent` record a call produces when no session is active. -/
def errorOfNoSession (c : ErrorCall) : ErrorEvent :=
  { timestamp := c.now, message := c.message, stack := c.stack,
    context := c.context, userId := none, sessionId := "unknown" }

lemma foldl_applyInteraction (cs : List InteractionCall)
    (s : TrackerState) :
    (cs.foldl applyInteraction s).interactions =
      (cs.map interactionOf).foldl (pushCap 100) s.interactions := by
  induction cs generalizing s with
  | nil => rfl
  | cons c cs ih =>
    rw [List.foldl_cons, List.map_cons, List.foldl_cons, ih]
    rfl

lemma applyError_currentSession (s : TrackerState) (c : ErrorCall) :
    (applyError s c).currentSession = s.currentSession := rfl

lemma foldl_applyError (es : List ErrorCall) (s : TrackerState)
    (h : s.currentSession = none) :
    (es.foldl applyError s).errors =
      (es.map errorOfNoSession).foldl (pushCap 50) s.errors := by
  induction es generalizing s with
  | nil => rfl
  | cons c es ih =>
    rw [List.foldl_cons, List.map_cons, List.foldl_cons,
      ih (applyError s c) (by rw [applyError_currentSession, h])]
    congr 1
    show (UserTracker.trackError s c.message c.stack c.context c.now).errors
      = _
    rw [trackError_errors, h]
    rfl

/-- Claim C6: each bounded buffer retains exactly the newest entries up
to its capacity, in original order.  Folding any sequence of log calls
through `storeLogLocally` from an empty store keeps exactly the last
`min(N, 100)` entries in call order; replaying any sequence of
`trackInteraction` calls on a fresh tracker leaves exactly the last
`min(N, 100)` interactions (so 150 pushes leave the last 100), and any
sequence of `trackError` calls leaves exactly the last `min(N, 50)`
error events. -/
theorem boundedBuffers_spec :
    (∀ entries : List LogEntry,
       List.foldl storeLogLocally [] entries =
         entries.drop (entries.length - 100) ∧
       (List.foldl storeLogLocally [] entries).length =
         min entries.length 100) ∧
    (∀ cs : List InteractionCall,
       (cs.foldl applyInteraction TrackerState.empty).interactions =
         (cs.map interactionOf).drop (cs.length - 100) ∧
       (cs.foldl applyInteraction TrackerState.empty).interactions.length =
         min cs.length 100) ∧
    (∀ es : List ErrorCall,
       (es.foldl applyError TrackerState.empty).errors =
         (es.map errorOfNoSession).drop (es.length - 50) ∧
       (es.foldl applyError TrackerState.empty).errors.length =
         min es.length 50) := by
  have hfold : ∀ (entries : List LogEntry),
      List.foldl storeLogLocally [] entries =
        entries.drop (entries.length - 100) := by
    intro entries
    have : List.foldl storeLogLocally ([] : List LogEntry) entries =
        List.foldl (pushCap 100) [] entries := by
      induction entries using List.reverseRecOn with
      | nil => rfl
      | append_singleton xs x ih =>
        rw [List.foldl_append, List.foldl_append, ih, List.foldl_cons,
          List.foldl_cons, List.foldl_nil, List.foldl_nil,
          storeLogLocally_eq_pushCap]
    rw [this, foldl_pushCap 100 (by omega)]
  refine ⟨fun entries => ⟨hfold entries, ?_⟩, fun cs => ⟨?_, ?_⟩,
    fun es => ⟨?_, ?_⟩⟩
  · rw [hfold entries, List.length_drop]; omega
  · rw [foldl_applyInteraction]
    show List.foldl (pushCap 100) [] (List.map interactionOf cs) = _
    rw [foldl_pushCap 100 (by omega), List.length_map]
  · rw [foldl_applyInteraction]
    show (List.foldl (pushCap 100) [] (List.map interactionOf cs)).length = _
    rw [foldl_pushCap 100 (by omega), List.length_drop, List.length_map]
    omega
  · rw [foldl_applyError es TrackerState.empty rfl]
    show List.foldl (pushCap 50) [] (List.map errorOfNoSession es) = _
    rw [foldl_pushCap 50 (by omega), List.length_map]
  · rw [foldl_applyError es TrackerState.empty rfl]
    show (List.foldl (pushCap 50) [] (List.map errorOfNoSession es)).length = _
    rw [foldl_pushCap 50 (by omega), List.length_drop, List.length_map]
    omega

/-- Claim C5: on a tracker with no prior activity, the sequence
`startSession`, three `trackInteraction('click', ...)`,
`trackPageView('/exam/1')`, `endSession` emits a session whose
interaction list has length 3 and whose `pageViews` are the initial
page followed by `/exam/1`, with a non-null `endTime` not before
`startTime`; afterwards the tracker state is fully cleared. -/
theorem sessionLifecycle_spec (p0 sid : String) (uid : Option String)
    (e1 e2 e3 : Option String) (pg1 pg2 pg3 : String)
    (d1 d2 d3 : Option JsValue) (t0 t1 t2 t3 t5 : Nat) (h : t0 ≤ t5) :
    ∃ sess,
      (UserTracker.endSession
          (UserTracker.trackPageView
            (UserTracker.trackInteraction
              (UserTracker.trackInteraction
                (UserTracker.trackInteraction
                  (UserTracker.startSession TrackerState.empty sid uid t0 p0)
                  .click e1 pg1 d1 t1)
                .click e2 pg2 d2 t2)
              .click e3 pg3 d3 t3)
            "/exam/1")
          t5).2 = some sess ∧
      sess.interactions.length = 3 ∧
      sess.pageViews = [p0, "/exam/1"] ∧
      sess.endTime = some t5 ∧
      sess.startTime ≤ t5 ∧
      (UserTracker.endSession
          (UserTracker.trackPageView
            (UserTracker.trackInteraction
              (UserTracker.trackInteraction
                (UserTracker.trackInteraction
                  (UserTracker.startSession TrackerState.empty sid uid t0 p0)
                  .click e1 pg1 d1 t1)
                .click e2 pg2 d2 t2)
              .click e3 pg3 d3 t3)
            "/exam/1")
          t5).1 =
        { currentSession := none, interactions := [], errors := [] } := by
  refine ⟨_, rfl, rfl, rfl, rfl, h, rfl⟩

/-- Witness for C5 at concrete inputs. -/
theorem sessionLifecycle_spec_witness :
    ∃ sess,
      (UserTracker.endSession
          (UserTracker.trackPageView
            (UserTracker.trackInteraction
              (UserTracker.trackInteraction
                (UserTracker.trackInteraction
                  (UserTracker.startSession TrackerState.empty "s1" none 0 "/")
                  .click none "/" none 1)
                .click none "/" none 2)
              .click none "/" none 3)
            "/exam/1")
          5).2 = some sess ∧
      sess.interactions.length = 3 ∧
      sess.pageViews = ["/", "/exam/1"] ∧
      sess.endTime = some 5 ∧
      sess.startTime ≤ 5 := by
  obtain ⟨sess, h1, h2, h3, h4, h5, _⟩ :=
    sessionLifecycle_spec "/" "s1" none none none none "/" "/" "/"
      none none none 0 1 2 3 5 (by decide)
  exact ⟨sess, h1, h2, h3, h4, h5⟩

/-- Claim C10: `startSession` leaves the tracker-level interaction and
error buffers untouched; `trackInteraction` and `trackError` append to
those buffers even when no session is active; consequently records
present before `startSession` are carried into the next `endSession`
summary. -/
theorem trackerFrame_spec :
    (∀ (s : TrackerState) (sid : String) (uid : Option String)
        (now : Nat) (p : String),
       (UserTracker.startSession s sid uid now p).interactions =
           s.interactions ∧
       (UserTracker.startSession s sid uid now p).errors = s.errors) ∧
    (∀ (s : TrackerState) (ty : InteractionType) (el : Option String)
        (pg : String) (d : Option JsValue) (now : Nat),
       s.currentSession = none →
       (UserTracker.trackInteraction s ty el pg d now).interactions =
         pushCap 100 s.interactions
           { timestamp := now, type := ty, element := el, page := pg,
             data := d }) ∧
    (∀ (s : TrackerState) (msg : String) (stk : Option String)
        (ctx : String) (now : Nat),
       s.currentSession = none →
       (UserTracker.trackError s msg stk ctx now).errors =
         pushCap 50 s.errors
           { timestamp := now, message := msg, stack := stk,
             context := ctx, userId := none, sessionId := "unknown" }) ∧
    (∀ (l : List UserInteraction) (ty : InteractionType)
        (el : Option String) (pg : String) (d : Option JsValue)
        (now : Nat) (sid : String) (uid : Option String) (t0 : Nat)
        (p : String) (t5 : Nat),
       l.length < 100 →
       ∃ sess,
         (UserTracker.endSession
             (UserTracker.startSession
               (UserTracker.trackInteraction
                 { currentSession := none, interactions := l, errors := [] }
                 ty el pg d now)
               sid uid t0 p)
             t5).2 = some sess ∧
         sess.interactions =
           l ++ [{ timestamp := now, type := ty, element := el, page := pg,
                   data := d }]) := by
  refine ⟨fun s sid uid now p => ⟨rfl, rfl⟩, fun s ty el pg d now _ => rfl,
    ?_, ?_⟩
  · intro s msg stk ctx now h
    rw [trackError_errors, h]
    rfl
  · intro l ty el pg d now sid uid t0 p t5 hl
    refine ⟨_, rfl, ?_⟩
    show (UserTracker.trackInteraction
        { currentSession := none, interactions := l, errors := [] }
        ty el pg d now).interactions = _
    rw [trackInteraction_interactions]
    simp only [pushCap, List.length_append, List.length_singleton]
    have : ¬ l.length + 1 > 100 := by omega
    simp [this]

/-- Witness for C10 at concrete inputs: an interaction tracked before
`startSession` (while no session is active) lands in the buffer and is
included in the summary emitted by the next `endSession`. -/
theorem trackerFrame_spec_witness :
    (UserTracker.trackInteraction TrackerState.empty .click none "/" none
        7).interactions =
      pushCap 100 TrackerState.empty.interactions
        { timestamp := 7, type := .click, element := none, page := "/",
          data := none } ∧
    ∃ sess,
      (UserTracker.endSession
          (UserTracker.startSession
            (UserTracker.trackInteraction
              { currentSession := none, interactions := [], errors := [] }
              .click none "/" none 7)
            "s2" none 8 "/")
          9).2 = some sess ∧
      sess.interactions =
        [{ timestamp := 7, type := .click, element := none, page := "/",
           data := none }] :=
  ⟨trackerFrame_spec.2.1 TrackerState.empty .click none "/" none 7 rfl,
   by
    obtain ⟨sess, h1, h2⟩ :=
      trackerFrame_spec.2.2.2 [] .click none "/" none 7 "s2" none 8 "/" 9
        (by decide)
    exact ⟨sess, h1, by simpa using h2⟩⟩

lemma attemptRecovery_maxed (op : Nat → Except ε α) (ctx : String)
    (maxAttempts : Nat) (counter : Option Nat) (k : Nat)
    (h : counter.getD 0 ≥ maxAttempts) :
    attemptRecovery op ctx maxAttempts counter k =
      (.error (.maxReached ("Max recovery attempts reached for " ++ ctx)),
       counter, 0) := by
  rw [attemptRecovery]
  simp [h]

lemma attemptRecovery_ok_counter (op : Nat → Except ε α) (ctx : String)
    (maxAttempts : Nat) :
    ∀ (n : Nat) (counter : Option Nat) (k : Nat),
      maxAttempts - counter.getD 0 ≤ n →
      ∀ a, (attemptRecovery op ctx maxAttempts counter k).1 = .ok a →
        (attemptRecovery op ctx maxAttempts counter k).2.1 = none := by
  intro n
  induction n with
  | zero =>
    intro counter k hn a hok
    rw [attemptRecovery_maxed op ctx maxAttempts counter k (by omega)]
      at hok
    exact absurd hok (by simp)
  | succ n ih =>
    intro counter k hn a hok
    rw [attemptRecovery] at hok ⊢
    by_cases hge : counter.getD 0 ≥ maxAttempts
    · simp [hge] at hok
    · simp only [hge, if_neg, if_false] at hok ⊢
      cases hop : op k with
      | ok b => simp [hop]
      | error e =>
        simp only [hop] at hok ⊢
        by_cases hlt : counter.getD 0 + 1 < maxAttempts
        · simp only [hlt, dif_pos] at hok ⊢
          exact ih (some (counter.getD 0 + 1)) (k + 1) (by simp; omega) a hok
        · simp [hlt] at hok

/-- Claim C4: with the default ceiling of 3, once the per-context
attempt counter has reached 3 a further `attemptRecovery` call raises
the "Max recovery attempts reached" error without invoking the
operation and leaves the counter untouched; and whenever the call
returns successfully the counter for that context has been deleted
(so the next call starts from zero attempts). -/
theorem attemptRecovery_spec (op : Nat → Except ε α) (ctx : String)
    (counter : Option Nat) (k : Nat) :
    (counter.getD 0 ≥ 3 →
      attemptRecovery op ctx 3 counter k =
        (.error (.maxReached ("Max recovery attempts reached for " ++ ctx)),
         counter, 0)) ∧
    (∀ a, (attemptRecovery op ctx 3 counter k).1 = .ok a →
      (attemptRecovery op ctx 3 counter k).2.1 = none) :=
  ⟨fun h => attemptRecovery_maxed op ctx 3 counter k h,
   fun a hok =>
     attemptRecovery_ok_counter op ctx 3 3 counter k (by omega) a hok⟩

/-- Witness for C4 at concrete inputs: a counter already at 3 makes the
call fail fast with the counter unchanged and zero operation
invocations, and a call whose operation succeeds deletes the counter. -/
theorem attemptRecovery_spec_witness :
    attemptRecovery (fun _ => (Except.error 0 : Except Nat Nat)) "X" 3
        (some 3) 0 =
      (.error (.maxReached ("Max recovery attempts reached for " ++ "X")),
       some 3, 0) ∧
    (attemptRecovery (fun _ => (Except.ok 1 : Except Nat Nat)) "X" 3
        (some 2) 0).2.1 = none := by
  constructor
  · exact (attemptRecovery_spec (fun _ => (Except.error 0 : Except Nat Nat))
      "X" (some 3) 0).1 (by decide)
  · refine (attemptRecovery_spec (fun _ => (Except.ok 1 : Except Nat Nat))
      "X" (some 2) 0).2 1 ?_
    rw [attemptRecovery]
    simp

/-- Claim C1: with options maxAttempts = 3, baseDelay = 1000,
maxDelay = 10000, `retryWithBackoff` invokes the operation sequentially
at most 3 times; every delay it sleeps is
`min(baseDelay * 2 ^ (attempt - 1) + jitter, maxDelay)` for a jitter
drawn from [0, 1000), hence between 1000 and 10000; an operation
failing on attempts 1-2 and succeeding on attempt 3 yields the success
value after exactly the two delays for attempts 1 and 2; an operation
failing on all 3 attempts raises the classified error of attempt 3
after exactly those same two delays (none after the final attempt). -/
theorem retryWithBackoff_spec (op : Nat → Except JsValue α)
    (jitter : Nat → ℚ) (context : Option String)
    (hj : ∀ k, 0 ≤ jitter k ∧ jitter k < 1000) :
    (retryWithBackoff op jitter context 3 1000 10000).2.2 ≤ 3 ∧
    (∀ d ∈ (retryWithBackoff op jitter context 3 1000 10000).2.1,
       1000 ≤ d ∧ d ≤ 10000) ∧
    (∀ e1 e2 a, op 1 = .error e1 → op 2 = .error e2 → op 3 = .ok a →
       retryWithBackoff op jitter context 3 1000 10000 =
         (.ok a,
          [min (1000 * 2 ^ 0 + jitter 1) 10000,
           min (1000 * 2 ^ 1 + jitter 2) 10000], 3)) ∧
    (∀ e1 e2 e3, op 1 = .error e1 → op 2 = .error e2 → op 3 = .error e3 →
       retryWithBackoff op jitter context 3 1000 10000 =
         (.error (some (handleError e3 context)),
          [min (1000 * 2 ^ 0 + jitter 1) 10000,
           min (1000 * 2 ^ 1 + jitter 2) 10000], 3)) := by
  have hdl : ∀ k : Nat,
      1000 ≤ min ((1000 : ℚ) * 2 ^ (k - 1) + jitter k) 10000 ∧
      min ((1000 : ℚ) * 2 ^ (k - 1) + jitter k) 10000 ≤ 10000 := by
    intro k
    have hp : (1 : ℚ) ≤ 2 ^ (k - 1) := one_le_pow₀ (by norm_num)
    have h0 := (hj k).1
    refine ⟨le_min (by nlinarith) (by norm_num), min_le_right _ _⟩
  rcases h1 : op 1 with e1 | a1
  · rcases h2 : op 2 with e2 | a2
    · rcases h3 : op 3 with e3 | a3
      · have hr : retryWithBackoff op jitter context 3 1000 10000 =
            (.error (some (handleError e3 context)),
             [min (1000 * 2 ^ 0 + jitter 1) 10000,
              min (1000 * 2 ^ 1 + jitter 2) 10000], 3) := by
          simp [retryWithBackoff, retryGo, h1, h2, h3]
        rw [hr]
        refine ⟨by norm_num, ?_, ?_, ?_⟩
        · intro d hd
          rcases List.mem_pair.mp hd with rfl | rfl
          · simpa using hdl 1
          · simpa using hdl 2
        · intro e1' e2' a h1' h2' h3'
          cases h3'
        · intro e1' e2' e3' h1' h2' h3'
          injection h3' with he
          rw [he]
      · have hr : retryWithBackoff op jitter context 3 1000 10000 =
            (.ok a3,
             [min (1000 * 2 ^ 0 + jitter 1) 10000,
              min (1000 * 2 ^ 1 + jitter 2) 10000], 3) := by
          simp [retryWithBackoff, retryGo, h1, h2, h3]
        rw [hr]
        refine ⟨by norm_num, ?_, ?_, ?_⟩
        · intro d hd
          rcases List.mem_pair.mp hd with rfl | rfl
          · simpa using hdl 1
          · simpa using hdl 2
        · intro e1' e2' a h1' h2' h3'
          injection h3' with he
          rw [he]
        · intro e1' e2' e3' h1' h2' h3'
          cases h3'
    · have hr : retryWithBackoff op jitter context 3 1000 10000 =
          (.ok a2, [min (1000 * 2 ^ 0 + jitter 1) 10000], 2) := by
        simp [retryWithBackoff, retryGo, h1, h2]
      rw [hr]
      refine ⟨by norm_num, ?_, ?_, ?_⟩
      · intro d hd
        rw [List.mem_singleton] at hd
        subst hd
        simpa using hdl 1
      · intro e1' e2' a h1' h2' h3'
        cases h2'
      · intro e1' e2' e3' h1' h2' h3'
        cases h2'
  · have hr : retryWithBackoff op jitter context 3 1000 10000 =
        (.ok a1, [], 1) := by
      simp [retryWithBackoff, retryGo, h1]
    rw [hr]
    refine ⟨by norm_num, ?_, ?_, ?_⟩
    · intro d hd
      cases hd
    · intro e1' e2' a h1' h2' h3'
      cases h1'
    · intro e1' e2' e3' h1' h2' h3'
      cases h1'

/-- Witness for C1 at a concrete operation that fails twice and then
succeeds, with zero jitter: the call returns the success value after
exactly the two delays 1000 and 2000 and three invocations. -/
theorem retryWithBackoff_spec_witness :
    retryWithBackoff
        (fun k => if k = 3 then Except.ok 42 else Except.error JsValue.null)
        (fun _ => 0) none 3 1000 10000 =
      (.ok 42,
       [min (1000 * 2 ^ 0 + 0) 10000, min (1000 * 2 ^ 1 + 0) 10000], 3) := by
  exact (retryWithBackoff_spec
      (fun k => if k = 3 then Except.ok 42 else Except.error JsValue.null)
      (fun _ => 0) none (fun k => by norm_num)).2.2.1
    JsValue.null JsValue.null 42 (by norm_num) (by norm_num) (by norm_num)

/-- Claim C2: the health check reports `healthy` exactly when all three
probes pass (and then `errors` is undefined), `unhealthy` exactly when
all three fail (and then `errors` would have three entries), and
`degraded` otherwise with exactly one error entry per failing probe,
prefixed with that probe's name.  In the source the Supabase probe
cannot fail, so the `unhealthy` case is unreachable and its clauses
hold vacuously. -/
theorem performHealthCheck_spec (now : Nat) (env : List String)
    (storageErr : Option String) :
    ((performHealthCheck now env storageErr).status = .healthy ↔
       ((performHealthCheck now env storageErr).checks.environment = true ∧
        (performHealthCheck now env storageErr).checks.supabase = true ∧
        (performHealthCheck now env storageErr).checks.storage = true)) ∧
    ((performHealthCheck now env storageErr).status = .healthy →
       (performHealthCheck now env storageErr).errors = none) ∧
    ((performHealthCheck now env storageErr).status = .unhealthy ↔
       ((performHealthCheck now env storageErr).checks.environment = false ∧
        (performHealthCheck now env storageErr).checks.supabase = false ∧
        (performHealthCheck now env storageErr).checks.storage = false)) ∧
    ((performHealthCheck now env storageErr).status = .unhealthy →
       ∃ l, (performHealthCheck now env storageErr).errors = some l ∧
         l.length = 3) ∧
    ((performHealthCheck now env storageErr).status = .degraded ↔
       (¬((performHealthCheck now env storageErr).checks.environment = true ∧
          (performHealthCheck now env storageErr).checks.supabase = true ∧
          (performHealthCheck now env storageErr).checks.storage = true) ∧
        ((performHealthCheck now env storageErr).checks.environment = true ∨
         (performHealthCheck now env storageErr).checks.supabase = true ∨
         (performHealthCheck now env storageErr).checks.storage = true))) ∧
    ((performHealthCheck now env storageErr).status = .degraded →
       ∃ envMsgs storMsgs,
         (performHealthCheck now env storageErr).errors =
           some (envMsgs ++ storMsgs) ∧
         envMsgs.length =
           (if (performHealthCheck now env storageErr).checks.environment
            then 0 else 1) ∧
         storMsgs.length =
           (if (performHealthCheck now env storageErr).checks.storage
            then 0 else 1) ∧
         (∀ e ∈ envMsgs, ∃ m, e = "Environment: " ++ m) ∧
         (∀ e ∈ storMsgs, ∃ m, e = "Storage: " ++ m)) := by
  by_cases h1 : env.contains "VITE_SUPABASE_URL" <;>
    by_cases h2 : env.contains "VITE_SUPABASE_ANON_KEY" <;>
    rcases storageErr with _ | m <;>
    simp only [performHealthCheck, validateEnvironmentVariables,
      getErrorMessage, mkValidationError, mkApplicationError, h1, h2,
      List.filter, Bool.not_true, Bool.not_false, List.isEmpty_nil,
      List.isEmpty_cons, Option.isNone_none, Option.isNone_some,
      Except.isOk, Except.toBool] <;>
    simp <;>
    first
      | exact ⟨[], [_], rfl, rfl, rfl, by simp,
          fun e he => by
            rcases List.mem_singleton.mp he with rfl; exact ⟨_, rfl⟩⟩
      | exact ⟨[_], [], rfl, rfl, rfl,
          fun e he => by
            rcases List.mem_singleton.mp he with rfl; exact ⟨_, rfl⟩,
          by simp⟩
      | exact ⟨[_], [_], rfl, rfl, rfl,
          fun e he => by
            rcases List.mem_singleton.mp he with rfl; exact ⟨_, rfl⟩,
          fun e he => by
            rcases List.mem_singleton.mp he with rfl; exact ⟨_, rfl⟩⟩

/-- Witness for C2 at concrete inputs: with both variables present and
working storage the check is healthy with no errors; with no variables
present it is degraded with exactly one error entry. -/
theorem performHealthCheck_spec_witness :
    (performHealthCheck 0 ["VITE_SUPABASE_URL", "VITE_SUPABASE_ANON_KEY"]
        none).status = .healthy ∧
    (performHealthCheck 0 ["VITE_SUPABASE_URL", "VITE_SUPABASE_ANON_KEY"]
        none).errors = none ∧
    (performHealthCheck 0 [] none).status = .degraded ∧
    ∃ l, (performHealthCheck 0 [] none).errors = some l ∧ l.length = 1 := by
  have hh : (performHealthCheck 0
      ["VITE_SUPABASE_URL", "VITE_SUPABASE_ANON_KEY"] none).status =
      .healthy :=
    (performHealthCheck_spec 0
      ["VITE_SUPABASE_URL", "VITE_SUPABASE_ANON_KEY"] none).1.mpr
      ⟨rfl, rfl, rfl⟩
  have hd : (performHealthCheck 0 [] none).status = .degraded :=
    (performHealthCheck_spec 0 [] none).2.2.2.2.1.mpr
      ⟨by decide, Or.inr (Or.inl rfl)⟩
  obtain ⟨ems, sms, he, h1, h2, _, _⟩ :=
    (performHealthCheck_spec 0 [] none).2.2.2.2.2 hd
  rw [show (performHealthCheck 0 [] none).checks.environment = false
    from rfl] at h1
  rw [show (performHealthCheck 0 [] none).checks.storage = true
    from rfl] at h2
  simp only [if_neg Bool.false_ne_true, if_pos] at h1 h2
  refine ⟨hh,
    (performHealthCheck_spec 0
      ["VITE_SUPABASE_URL", "VITE_SUPABASE_ANON_KEY"] none).2.1 hh,
    hd, ems ++ sms, he, ?_⟩
  rw [List.length_append, h1, h2]

lemma checkAlerts_rate_mem (history : List HealthCheck)
    (memory : Option MemoryInfo) :
    (∃ r, Alert.highErrorRate r ∈ checkAlerts history memory) ↔
      recentErrorRate history > 5 / 100 := by
  unfold checkAlerts
  by_cases hr : recentErrorRate history > 5 / 100
  · simp [hr]
  · simp only [hr, if_false]
    rcases memory with _ | m
    · simp [hr]
    · simp only [List.nil_append]
      constructor
      · rintro ⟨r, hmem⟩
        split at hmem <;> simp at hmem
      · intro h
        exact h.elim

lemma checkAlerts_nonempty_no_memory (history : List HealthCheck) :
    checkAlerts history none ≠ [] ↔ recentErrorRate history > 5 / 100 := by
  unfold checkAlerts
  by_cases hr : recentErrorRate history > 5 / 100 <;> simp [hr]

/-- Claim C7: every `checkHealth` call appends the new check to the
history, which is bounded at 100 entries with the oldest evicted, and
(absent memory telemetry) an alert is logged exactly when the fraction
of `unhealthy` entries among the 10 most recent history entries exceeds
5%; with memory telemetry present, the error-rate alert itself is
raised exactly under that condition. -/
theorem healthMonitor_spec (history : List HealthCheck)
    (health : HealthCheck) (memory : Option MemoryInfo) :
    (checkHealth history health memory).1.length =
        min (history.length + 1) 100 ∧
    List.IsSuffix (checkHealth history health memory).1
        (history ++ [health]) ∧
    (checkHealth history health memory).1.getLast? = some health ∧
    ((∃ r, Alert.highErrorRate r ∈ (checkHealth history health memory).2) ↔
       recentErrorRate (checkHealth history health memory).1 > 5 / 100) ∧
    (memory = none →
       ((checkHealth history health memory).2 ≠ [] ↔
         recentErrorRate (checkHealth history health memory).1 >
           5 / 100)) := by
  have hist1 : (checkHealth history health memory).1 =
      if (history ++ [health]).length > 100
      then sliceLast 100 (history ++ [health])
      else history ++ [health] := rfl
  have halerts : (checkHealth history health memory).2 =
      checkAlerts (checkHealth history health memory).1 memory := rfl
  refine ⟨?_, ?_, ?_, ?_, ?_⟩
  · rw [hist1]
    split
    · next h =>
      simp only [sliceLast, List.length_drop, List.length_append,
        List.length_singleton] at h ⊢
      omega
    · next h =>
      simp only [List.length_append, List.length_singleton] at h ⊢
      omega
  · rw [hist1]
    split
    · exact List.drop_suffix _ _
    · exact List.suffix_refl _
  · rw [hist1]
    split
    · next h =>
      rw [sliceLast, List.getLast?_eq_getElem?, List.length_drop,
        List.getElem?_drop]
      rw [show (history ++ [health]).length - 100 +
          ((history ++ [health]).length -
            ((history ++ [health]).length - 100) - 1) =
          (history ++ [health]).length - 1 from by omega]
      rw [← List.getLast?_eq_getElem?]
      exact List.getLast?_concat _
    · exact List.getLast?_concat _
  · rw [halerts]
    exact checkAlerts_rate_mem _ memory
  · intro hm
    subst hm
    rw [halerts]
    exact checkAlerts_nonempty_no_memory _

/-- Witness for C7 at concrete inputs: appending an unhealthy check to
nine healthy ones (1 unhealthy among the last 10, a 10% rate) logs an
alert; appending a healthy one (0 of 10) logs none. -/
theorem healthMonitor_spec_witness :
    (checkHealth
        (List.replicate 9
          { status := HealthStatus.healthy, timestamp := 0,
            checks := { environment := true, supabase := true,
                        storage := true },
            errors := none })
        { status := HealthStatus.unhealthy, timestamp := 0,
          checks := { environment := false, supabase := false,
                      storage := false },
          errors := none }
        none).2 ≠ [] ∧
    (checkHealth
        (List.replicate 9
          { status := HealthStatus.healthy, timestamp := 0,
            checks := { environment := true, supabase := true,
                        storage := true },
            errors := none })
        { status := HealthStatus.healthy, timestamp := 0,
          checks := { environment := true, supabase := true,
                      storage := true },
          errors := none }
        none).2 = [] := by
  constructor
  · refine ((healthMonitor_spec _ _ none).2.2.2.2 rfl).mpr ?_
    have h1 : (checkHealth
        (List.replicate 9
          { status := HealthStatus.healthy, timestamp := 0,
            checks := { environment := true, supabase := true,
                        storage := true },
            errors := none })
        { status := HealthStatus.unhealthy, timestamp := 0,
          checks := { environment := false, supabase := false,
                      storage := false },
          errors := none }
        none).1 =
        List.replicate 9
          ({ status := HealthStatus.healthy, timestamp := 0,
             checks := { environment := true, supabase := true,
                         storage := true },
             errors := none } : HealthCheck) ++
          [{ status := HealthStatus.unhealthy, timestamp := 0,
             checks := { environment := false, supabase := false,
                         storage := false },
             errors := none }] := rfl
    rw [h1]
    have h2 : recentErrorRate
        (List.replicate 9
          ({ status := HealthStatus.healthy, timestamp := 0,
             checks := { environment := true, supabase := true,
                         storage := true },
             errors := none } : HealthCheck) ++
          [{ status := HealthStatus.unhealthy, timestamp := 0,
             checks := { environment := false, supabase := false,
                         storage := false },
             errors := none }]) = 1 / 10 := by
      simp [recentErrorRate, sliceLast, List.replicate, List.countP_cons,
        List.countP_nil]
    rw [h2]
    norm_num
  · have h2 := (healthMonitor_spec
      (List.replicate 9
        { status := HealthStatus.healthy, timestamp := 0,
          checks := { environment := true, supabase := true,
                      storage := true },
          errors := none })
      { status := HealthStatus.healthy, timestamp := 0,
        checks := { environment := true, supabase := true,
                    storage := true },
        errors := none }
      none).2.2.2.2 rfl
    by_contra hne
    have h3 := h2.mp hne
    have h4 : (checkHealth
        (List.replicate 9
          { status := HealthStatus.healthy, timestamp := 0,
            checks := { environment := true, supabase := true,
                        storage := true },
            errors := none })
        { status := HealthStatus.healthy, timestamp := 0,
          checks := { environment := true, supabase := true,
                      storage := true },
          errors := none }
        none).1 =
        List.replicate 10
          ({ status := HealthStatus.healthy, timestamp := 0,
             checks := { environment := true, supabase := true,
                         storage := true },
             errors := none } : HealthCheck) := rfl
    rw [h4] at h3
    have h5 : recentErrorRate
        (List.replicate 10
          ({ status := HealthStatus.healthy, timestamp := 0,
             checks := { environment := true, supabase := true,
                         storage := true },
             errors := none } : HealthCheck)) = 0 := by
      simp [recentErrorRate, sliceLast, List.replicate, List.countP_cons,
        List.countP_nil]
    rw [h5] at h3
    norm_num at h3
